import Mathlib

/-!
Verification of the pins-python core against its specification.

The repository excerpt provides `pins/constructors.py` (board constructors and
`board_deparse`) and `pins/tests/test_adaptors.py` (the adaptor test suite).
The adaptor module itself (`pins/adaptors.py`), the cache module
(`pins/cache.py`: `PinsCache`, `PinsRscCache`, `PinsAccessTimeCache`,
`prefix_cache`) and the config module (`pins/config.py`: `get_cache_dir`,
`get_data_dir`) are not in the excerpt; where a claim depends on them they are
modelled from the spec, faithful to the behaviors the in-repository tests pin
down.  Everything about `constructors.py` is embedded directly from its source.
-/

namespace Pins

/- ## Payloads and adaptors -/

/-- An in-memory payload handed to the pins adaptor layer.  The test suite
exercises integers, string-keyed dictionaries of integers, and pandas
DataFrames (modelled as a list of named integer columns). -/
inductive Payload where
  | pInt (n : Int)
  | pDict (entries : List (String × Int))
  | pDataFrame (cols : List (String × List Int))
  deriving Repr, DecidableEq

/-- Modelled from the spec: the Python runtime type name `type(obj).__qualname__`
for the payload shapes the tests use. -/
def typeName : Payload → String
  | .pInt _ => "int"
  | .pDict _ => "dict"
  | .pDataFrame _ => "DataFrame"

/-- Modelled from the spec: whether a payload exposes rows/columns/shape, i.e.
whether Python's `isinstance(obj, _AbstractPandasFrame)` check succeeds.  Only
DataFrame payloads do. -/
def exposesShape : Payload → Bool
  | .pDataFrame _ => true
  | _ => false

/-- An adaptor wrapping one payload: either the generic `_Adaptor` (opaque
capability) or `_PandasAdaptor` (tabular capability), as produced by
`_create_adaptor`. -/
inductive Adaptor where
  | opaqueA (p : Payload)
  | pandasA (cols : List (String × List Int))
  deriving Repr, DecidableEq

/-- Modelled from the spec: `_create_adaptor(obj)` dispatches on
`isinstance(obj, _AbstractPandasFrame)` — DataFrame payloads get a
`_PandasAdaptor`, everything else the base `_Adaptor`. -/
def createAdaptor : Payload → Adaptor
  | .pDataFrame cols => .pandasA cols
  | p => .opaqueA p

/-- Whether an adaptor is a `_DFAdaptor` (has the tabular capability). -/
def Adaptor.isDF : Adaptor → Bool
  | .pandasA _ => true
  | .opaqueA _ => false

/-- Column names of a `_PandasAdaptor` (`adaptor.columns`). -/
def dfColumns (cols : List (String × List Int)) : List String :=
  cols.map Prod.fst

/-- Number of rows of the modelled DataFrame (pandas `len(df)`): the length of
the first column (columns are rectangular). -/
def dfRows (cols : List (String × List Int)) : Nat :=
  match cols with
  | [] => 0
  | c :: _ => c.2.length

/-- `adaptor.shape`: `(rows, columns)` as pandas reports it. -/
def dfShape (cols : List (String × List Int)) : Nat × Nat :=
  (dfRows cols, cols.length)

/-- `df.head(n)`: the first `n` rows of every column. -/
def dfHead (n : Nat) (cols : List (String × List Int)) : List (String × List Int) :=
  cols.map (fun c => (c.1, c.2.take n))

/-- Row `i` of the DataFrame as a record: one `(column, value)` pair per
column, in column order (pandas `to_dict(orient="records")` row shape). -/
def dfRecord (cols : List (String × List Int)) (i : Nat) : List (String × Int) :=
  cols.map (fun c => (c.1, c.2.getD i 0))

/-- All rows of the DataFrame as records. -/
def dfRecords (cols : List (String × List Int)) : List (List (String × Int)) :=
  (List.range (dfRows cols)).map (dfRecord cols)

/- ## Serialization formats -/

/-- The serialization formats the adaptor layer dispatches over: `json` is the
generic structured-snapshot format, `joblib` the binary generic-object format,
`csv` the row-oriented text format, `parquet` the columnar binary format and
`feather` the record-oriented binary format. -/
inductive SerialFormat where
  | json | joblib | csv | parquet | feather
  deriving Repr, DecidableEq

/-- Errors of the adaptor layer.  The spec names the failure on a
format/capability mismatch `UnsupportedFormat`. -/
inductive AdaptorError where
  | unsupportedFormat (fmt : SerialFormat)
  deriving Repr, DecidableEq

/-- Python `sep.join(parts)`. -/
def joinSep (sep : String) : List String → String
  | [] => ""
  | [x] => x
  | x :: xs => x ++ sep ++ joinSep sep xs

/-- JSON string literal. -/
def jsonStr (s : String) : String :=
  "\"" ++ s ++ "\""

/-- Modelled from the spec: Python `json.dumps` on the opaque payload shapes
the tests use (default separators, i.e. a space after each colon and comma). -/
def writeJsonOpaque : Payload → String
  | .pInt n => toString n
  | .pDict entries =>
      "\x7b" ++
        joinSep ", "
          (entries.map (fun e => jsonStr e.1 ++ ": " ++ toString e.2)) ++
      "\x7d"
  | .pDataFrame cols =>
      "\x7b" ++
        joinSep ", "
          (cols.map (fun c => jsonStr c.1 ++ ": " ++ toString c.2)) ++
      "\x7d"

/-- One DataFrame record in pandas `to_json(orient="records")` form (no
spaces after separators). -/
def jsonRecordCompact (r : List (String × Int)) : String :=
  "\x7b" ++
    joinSep "," (r.map (fun e => jsonStr e.1 ++ ":" ++ toString e.2)) ++
  "\x7d"

/-- Modelled from the spec: `_PandasAdaptor.write_json`, i.e. pandas
`to_json(orient="records")`. -/
def writeJsonRecords (cols : List (String × List Int)) : String :=
  "[" ++ joinSep "," ((dfRecords cols).map jsonRecordCompact) ++ "]"

/-- Modelled from the spec: `_PandasAdaptor.write_csv`, i.e. pandas
`to_csv(index=False)` — a header line of comma-joined column names, then one
comma-joined line per row, each line newline-terminated. -/
def writeCsv (cols : List (String × List Int)) : String :=
  joinSep "," (dfColumns cols) ++ "\n" ++
    String.join
      ((dfRecords cols).map
        (fun r => joinSep "," (r.map (fun e => toString e.2)) ++ "\n"))

/-- Modelled from the spec: `serialize(format, destination)` dispatch.  Opaque
payloads support only `json` and `joblib`; the tabular-only formats fail with
`UnsupportedFormat` (the Python base `_Adaptor` raises on `write_csv`,
`write_parquet`, `write_feather`).  Tabular payloads support every format.
The binary codecs (`joblib`, `parquet`, `feather`) are external collaborators;
their byte output is modelled as a deterministic tagged encoding of the
payload, which is all the claims observe. -/
def serialize : Adaptor → SerialFormat → Except AdaptorError String
  | .opaqueA p, .json => .ok (writeJsonOpaque p)
  | .opaqueA p, .joblib => .ok ("joblib:" ++ writeJsonOpaque p)
  | .opaqueA _, .csv => .error (.unsupportedFormat .csv)
  | .opaqueA _, .parquet => .error (.unsupportedFormat .parquet)
  | .opaqueA _, .feather => .error (.unsupportedFormat .feather)
  | .pandasA cols, .json => .ok (writeJsonRecords cols)
  | .pandasA cols, .joblib => .ok ("joblib:" ++ writeJsonRecords cols)
  | .pandasA cols, .csv => .ok (writeCsv cols)
  | .pandasA cols, .parquet => .ok ("parquet:" ++ writeCsv cols)
  | .pandasA cols, .feather => .ok ("feather:" ++ writeCsv cols)

/-- Whether a serialization outcome is the `UnsupportedFormat` failure. -/
def isUnsupported : Except AdaptorError String → Bool
  | .error (.unsupportedFormat _) => true
  | .ok _ => false

/- ## Preview and titles -/

/-- One per-column descriptor of the tabular preview: name, display label,
alignment hint and type hint, each wrapped in a one-element list. -/
def columnDescriptor (c : String) : String :=
  "\x7b\"name\": [" ++ jsonStr c ++ "], \"label\": [" ++ jsonStr c ++
    "], \"align\": [\"left\"], \"type\": [\"\"]\x7d"

/-- One DataFrame record with `json.dumps` default separators. -/
def jsonRecordSpaced (r : List (String × Int)) : String :=
  "\x7b" ++
    joinSep ", " (r.map (fun e => jsonStr e.1 ++ ": " ++ toString e.2)) ++
  "\x7d"

/-- Modelled from the spec: `data_preview` of a tabular adaptor —
`json.dumps` of a dict holding the head-100 rows as records plus the
per-column descriptors. -/
def previewTabular (cols : List (String × List Int)) : String :=
  "\x7b\"data\": [" ++
    joinSep ", " ((dfRecords (dfHead 100 cols)).map jsonRecordSpaced) ++
  "], \"columns\": [" ++
    joinSep ", " ((dfColumns cols).map columnDescriptor) ++
  "]\x7d"

/-- Modelled from the spec: `data_preview` — the fixed empty-structure marker
for opaque payloads, the structured summary for tabular ones. -/
def data_preview : Adaptor → String
  | .opaqueA _ => "\x7b\x7d"
  | .pandasA cols => previewTabular cols

/-- Modelled from the spec: the `_obj_name` property — the base `_Adaptor`
yields `"<type> object"`, the `_DFAdaptor` override yields
`"<rows> x <cols> DataFrame"`. -/
def objName : Adaptor → String
  | .opaqueA p => typeName p ++ " object"
  | .pandasA cols => toString (dfRows cols) ++ " x " ++ toString cols.length ++ " DataFrame"

/-- Modelled from the spec: `default_title(name)` is
`"<name>: a pinned <obj_name>"`, shared by both adaptor classes. -/
def default_title (a : Adaptor) (name : String) : String :=
  name ++ ": a pinned " ++ objName a

/- ## Cache and config collaborators of constructors.py -/

/-- Modelled from the spec: `get_cache_dir()` — the environment-resolved local
cache root, an abstract constant from the core's point of view. -/
def get_cache_dir : String := "PINS_CACHE_DIR"

/-- Modelled from the spec: `get_data_dir()` — the environment-resolved system
data directory used by `board_local`. -/
def get_data_dir : String := "PINS_DATA_DIR"

/-- Modelled from the spec: `prefix_cache(fs, identity)` derives the cache
namespace key from the filesystem's protocol and the board identity (base path
or server url): `"<protocol>_<hash(identity)>"`.  The spec declares the hash
deterministic and collision-resistant (distinct identities get distinct keys),
so it is idealized as the identity itself, which keeps the derivation
deterministic and injective in the identity. -/
def prefix_cache (protocol : String) (identity : String) : String :=
  protocol ++ "_" ++ identity

/-- A (possibly cache-wrapped) fsspec filesystem, as `board`/`board_url`
construct one: either a plain backend filesystem, or one of the three cache
wrappers from `pins.cache` recorded with the constructor arguments
`constructors.py` passes. -/
inductive Fs where
  | plain (protocol : String)
  | rscFs (server_url : String) (api_key : Option String)
  | pinsCache (cacheStorage : String) (wrapped : Fs) (hashPrefix : String)
      (sameNames : Bool)
  | pinsRscCache (cacheStorage : String) (wrapped : Fs) (hashPrefix : String)
      (sameNames : Bool)
  | pinsAccessTimeCache (targetProtocol : String) (cacheStorage : String)
      (sameNames : Bool)
  deriving Repr, DecidableEq

/-- Protocol of the backend filesystem (`RsConnectFs` has protocol `"rsc"`;
the fsspec cache wrappers delegate attribute access to the wrapped
filesystem; `PinsAccessTimeCache` is built over its target protocol). -/
def Fs.protocol : Fs → String
  | .plain p => p
  | .rscFs _ _ => "rsc"
  | .pinsCache _ fs _ _ => fs.protocol
  | .pinsRscCache _ fs _ _ => fs.protocol
  | .pinsAccessTimeCache tp _ _ => tp

/-- The `fs.api.server_url` attribute, reached through cache wrappers by the
same delegation; only ever read when the protocol is `"rsc"`. -/
def Fs.serverUrl : Fs → String
  | .rscFs u _ => u
  | .pinsCache _ fs _ _ => fs.serverUrl
  | .pinsRscCache _ fs _ _ => fs.serverUrl
  | _ => ""

/-- The `cache_storage` directory of the outermost cache wrapper, if any. -/
def Fs.cacheDir : Fs → Option String
  | .plain _ => none
  | .rscFs _ _ => none
  | .pinsCache d _ _ _ => some d
  | .pinsRscCache d _ _ _ => some d
  | .pinsAccessTimeCache _ d _ => some d

/-- The `same_names` flag of the outermost cache wrapper, if any. -/
def Fs.sameNamesFlag : Fs → Option Bool
  | .plain _ => none
  | .rscFs _ _ => none
  | .pinsCache _ _ _ s => some s
  | .pinsRscCache _ _ _ s => some s
  | .pinsAccessTimeCache _ _ s => some s

/-- Whether the filesystem is wrapped in one of the two version-pinned cache
classes (`PinsCache` / `PinsRscCache`), as opposed to no cache or the
access-time cache. -/
def Fs.isVersionPinned : Fs → Bool
  | .pinsCache _ _ _ _ => true
  | .pinsRscCache _ _ _ _ => true
  | _ => false

/- ## constructors.py: board constructors (embedded from the source) -/

/-- The `cache` argument of `board`: the `DEFAULT` sentinel class, Python
`None`, or any other caller-supplied cache object. -/
inductive CacheArg where
  | DEFAULT
  | noCache
  | otherObj
  deriving Repr, DecidableEq

/-- The Python exceptions the embedded constructors can raise. -/
inductive PinsError where
  | typeError (msg : String)
  | notImplementedError (msg : String)
  deriving Repr, DecidableEq

/-- A constructed board object: its class, base path (`board.board`),
filesystem, versioned flag, `allow_pickle_read` and (for `BoardManual`)
`pin_paths`. -/
structure BoardObj where
  kind : String
  board : String
  fs : Fs
  versioned : Bool
  allow_pickle_read : Option Bool
  pin_paths : List (String × String)
  deriving Repr, DecidableEq

/-- The `board` function of `constructors.py` (with `board_factory = None`):
builds the backend filesystem, wraps it in a cache when `cache is DEFAULT`
(an `PinsRscCache` keyed by the server url for protocol `"rsc"`, otherwise a
`PinsCache` keyed by the base path, both with `same_names=True`), leaves it
bare when `cache is None`, and otherwise evaluates
`NotImplemented("Can't currently pass own cache object.")` — a `TypeError`,
since the `NotImplemented` singleton is not callable — before any board is
constructed.  `server_url` and `api_key` stand for the same-named entries of
`storage_options`, consumed by `RsConnectFs` when the protocol is `"rsc"`. -/
def board (protocol : String) (path : String) (versioned : Bool)
    (cache : CacheArg) (allow_pickle_read : Option Bool)
    (server_url : String) (api_key : Option String) : Except PinsError BoardObj :=
  let fs0 := if protocol == "rsc" then Fs.rscFs server_url api_key else Fs.plain protocol
  match cache with
  | .otherObj => .error (.typeError "NotImplementedType object is not callable")
  | c =>
    let fs :=
      match c with
      | .DEFAULT =>
        if protocol == "rsc" then
          let hashPrefix := server_url
          let cache_dir := get_cache_dir ++ "/" ++ prefix_cache protocol hashPrefix
          Fs.pinsRscCache cache_dir fs0 hashPrefix true
        else
          let cache_dir := get_cache_dir ++ "/" ++ prefix_cache protocol path
          Fs.pinsCache cache_dir fs0 path true
      | _ => fs0
    if protocol == "rsc" then
      .ok
        { kind := "BoardRsConnect", board := path, fs := fs,
          versioned := versioned, allow_pickle_read := allow_pickle_read,
          pin_paths := [] }
    else
      .ok
        { kind := "BaseBoard", board := path, fs := fs,
          versioned := versioned, allow_pickle_read := allow_pickle_read,
          pin_paths := [] }

/-- `board_folder(path, versioned, allow_pickle_read)`: a `"file"` board with
`cache=None`. -/
def board_folder (path : String) (versioned : Bool)
    (allow_pickle_read : Option Bool) : Except PinsError BoardObj :=
  board "file" path versioned CacheArg.noCache allow_pickle_read "" none

/-- `board_local(versioned, allow_pickle_read)`: a `"file"` board at the
system data directory, with `cache=None`. -/
def board_local (versioned : Bool) (allow_pickle_read : Option Bool) :
    Except PinsError BoardObj :=
  board "file" get_data_dir versioned CacheArg.noCache allow_pickle_read "" none

/-- `board_rsconnect(server_url, versioned, api_key, cache,
allow_pickle_read)`: an `"rsc"` board, passing `server_url` and `api_key`
through `storage_options` (the `path` argument is `None`, modelled `""`). -/
def board_rsconnect (server_url : String) (versioned : Bool)
    (api_key : Option String) (cache : CacheArg)
    (allow_pickle_read : Option Bool) : Except PinsError BoardObj :=
  board "rsc" "" versioned cache allow_pickle_read server_url api_key

/-- `board_url(path, pin_paths, cache, allow_pickle_read)`: with the DEFAULT
cache it builds a `PinsAccessTimeCache` over the `http` protocol, under the
namespace `prefix_cache("http", path)`, with `same_names=False`, and returns a
`BoardManual`; any other cache argument (including `None`) raises
`NotImplementedError`. -/
def board_url (path : String) (pin_paths : List (String × String))
    (cache : CacheArg) (allow_pickle_read : Option Bool) :
    Except PinsError BoardObj :=
  match cache with
  | .DEFAULT =>
    let sub_cache := get_cache_dir ++ "/" ++ prefix_cache "http" path
    let fs := Fs.pinsAccessTimeCache "http" sub_cache false
    .ok
      { kind := "BoardManual", board := path, fs := fs, versioned := true,
        allow_pickle_read := allow_pickle_read, pin_paths := pin_paths }
  | _ => .error (.notImplementedError "Can't currently pass own cache object")

/- ## constructors.py: board_deparse (embedded from the source) -/

/-- Python `repr` of a boolean. -/
def pyReprBool (b : Bool) : String :=
  if b then "True" else "False"

/-- Python `repr` of a string (the urls and paths involved contain no quote
characters, so the single-quoted form suffices). -/
def pyReprStr (s : String) : String :=
  "'" ++ s ++ "'"

/-- `board_deparse(board)`: renders `board_rsconnect(server_url=...)` for
protocol `"rsc"` (from `board.fs.api.server_url` — the api key is never
consulted), `board_folder(...)` for protocol `"file"` (from `board.board`),
appending `, allow_pickle_read=...` whenever that attribute is not `None`,
and raises `NotImplementedError` for every other protocol. -/
def board_deparse (b : BoardObj) : Except PinsError String :=
  let allow_pickle :=
    match b.allow_pickle_read with
    | some v => ", allow_pickle_read=" ++ pyReprBool v
    | none => ""
  let prot := b.fs.protocol
  if prot == "rsc" then
    .ok ("board_rsconnect(server_url=" ++ pyReprStr b.fs.serverUrl ++
      allow_pickle ++ ")")
  else if prot == "file" then
    .ok ("board_folder(" ++ pyReprStr b.board ++ allow_pickle ++ ")")
  else
    .error (.notImplementedError
      ("board deparsing currently not supported for protocol: " ++ prot))

/-- Whether an `Except` computation succeeded. -/
def isOkE {ε α : Type} : Except ε α → Bool
  | .ok _ => true
  | .error _ => false

end Pins

namespace Pins

/- ## Theorems -/

/-- C1: for every opaque payload (one without the tabular capability),
serializing with a tabular-only format (csv, parquet, feather) fails with
`UnsupportedFormat` while the json and joblib formats succeed; for every
tabular payload, all formats succeed.  Equivalently: the outcome is the
`UnsupportedFormat` failure exactly when the payload is non-tabular and the
format tabular-only, and a success in every other case. -/
theorem serialize_format_capability (p : Payload) (fmt : SerialFormat) :
    isUnsupported (serialize (createAdaptor p) fmt) =
      (!exposesShape p && (fmt == .csv || fmt == .parquet || fmt == .feather))
    ∧ isOkE (serialize (createAdaptor p) fmt) =
      (exposesShape p || fmt == .json || fmt == .joblib) := by
  cases p <;> cases fmt <;>
    simp [createAdaptor, serialize, exposesShape, isUnsupported, isOkE]

/-- C3: writing the payload with columns a = [1, 2, 3] and b = [4, 5, 6] as a
tabular object in the csv format produces exactly the bytes
"a,b\n1,4\n2,5\n3,6\n", and its default title for the name df_csv is
"df_csv: a pinned 3 x 2 DataFrame". -/
theorem csv_scenario_df_csv :
    serialize (createAdaptor (Payload.pDataFrame [("a", [1, 2, 3]), ("b", [4, 5, 6])]))
        SerialFormat.csv = Except.ok "a,b\n1,4\n2,5\n3,6\n"
    ∧ default_title (createAdaptor (Payload.pDataFrame [("a", [1, 2, 3]), ("b", [4, 5, 6])]))
        "df_csv" = "df_csv: a pinned 3 x 2 DataFrame" := by
  exact ⟨rfl, rfl⟩

/-- C6: wrapping a payload in an adaptor grants the tabular capability
(`_DFAdaptor`) if and only if the payload exposes rows/columns/shape (a
DataFrame-shaped object); every other payload is wrapped opaque, and a
DataFrame payload is wrapped as the pandas adaptor over its columns. -/
theorem create_adaptor_classification (p : Payload) :
    (createAdaptor p).isDF = exposesShape p
    ∧ (exposesShape p = false → createAdaptor p = Adaptor.opaqueA p)
    ∧ (∀ cols, p = Payload.pDataFrame cols → createAdaptor p = Adaptor.pandasA cols) := by
  cases p <;> simp [createAdaptor, Adaptor.isDF, exposesShape]

/-- C6 witness: the integer payload 42 and a plain dict are wrapped opaque,
and the test DataFrame is wrapped tabular over its columns. -/
theorem create_adaptor_classification_witness :
    createAdaptor (Payload.pInt 42) = Adaptor.opaqueA (Payload.pInt 42)
    ∧ createAdaptor (Payload.pDataFrame [("a", [1, 2, 3]), ("b", [4, 5, 6])])
        = Adaptor.pandasA [("a", [1, 2, 3]), ("b", [4, 5, 6])] :=
  ⟨(create_adaptor_classification (Payload.pInt 42)).2.1 rfl,
   (create_adaptor_classification
      (Payload.pDataFrame [("a", [1, 2, 3]), ("b", [4, 5, 6])])).2.2 _ rfl⟩

/-- C4: for every payload and name, the default title is
"name: a pinned type object" when the payload is opaque (with the payload's
runtime type name) and "name: a pinned rows x cols DataFrame" when it is
tabular, the size standing before the literal "DataFrame" label. -/
theorem default_title_spec (p : Payload) (name : String) :
    default_title (createAdaptor p) name =
      (match p with
       | Payload.pDataFrame cols =>
           name ++ ": a pinned " ++ toString (dfShape cols).1 ++ " x " ++
             toString (dfShape cols).2 ++ " DataFrame"
       | _ => name ++ ": a pinned " ++ typeName p ++ " object") := by
  cases p <;>
    simp [default_title, objName, createAdaptor, typeName, dfShape, dfRows,
      String.append_assoc]

/-- C2 counterexample: `board_folder` (and likewise `board_local`) passes
`cache=None` to `board`, so the board it constructs carries the bare backend
filesystem — it is not wrapped in a version-pinned cache. -/
theorem board_folder_uncached_cex :
    board_folder "a/b/c" true none =
      Except.ok
        { kind := "BaseBoard", board := "a/b/c", fs := Fs.plain "file",
          versioned := true, allow_pickle_read := none, pin_paths := [] }
    ∧ (board_local true none).map (fun b => b.fs.isVersionPinned) =
        Except.ok false := by
  exact ⟨rfl, rfl⟩

/-- C2 (amended): a board over a path-addressed or object-store backend
constructed through the general `board` function with the default cache
setting has its filesystem wrapped in the version-pinned `PinsCache`; but the
path-backend convenience constructors `board_folder` and `board_local` pass
`cache=None`, so the boards they create have a bare, uncached filesystem. -/
theorem default_cache_version_pinned (protocol path : String) (versioned : Bool)
    (apr : Option Bool) (su : String) (ak : Option String) :
    (protocol ≠ "rsc" →
      board protocol path versioned CacheArg.DEFAULT apr su ak =
        Except.ok
          { kind := "BaseBoard", board := path,
            fs := Fs.pinsCache (get_cache_dir ++ "/" ++ prefix_cache protocol path)
              (Fs.plain protocol) path true,
            versioned := versioned, allow_pickle_read := apr, pin_paths := [] })
    ∧ (board_folder path versioned apr).map (fun b => b.fs) =
        Except.ok (Fs.plain "file")
    ∧ (board_local versioned apr).map (fun b => b.fs) =
        Except.ok (Fs.plain "file") := by
  refine ⟨fun h => ?_, rfl, rfl⟩
  simp [board, h]

/-- C2 witness: the amended statement at an object-store backend. -/
theorem default_cache_version_pinned_witness :
    board "s3" "bucket/path" true CacheArg.DEFAULT none "" none =
      Except.ok
        { kind := "BaseBoard", board := "bucket/path",
          fs := Fs.pinsCache (get_cache_dir ++ "/" ++ prefix_cache "s3" "bucket/path")
            (Fs.plain "s3") "bucket/path" true,
          versioned := true, allow_pickle_read := none, pin_paths := [] } :=
  (default_cache_version_pinned "s3" "bucket/path" true none "" none).1 (by decide)

/-- Appending on the left is cancellative for strings. -/
theorem string_append_left_cancel_iff (a b c : String) :
    a ++ b = a ++ c ↔ b = c := by
  constructor
  · intro h
    have hd := congrArg String.data h
    simp only [String.data_append] at hd
    exact String.ext (List.append_cancel_left hd)
  · intro h
    rw [h]

/-- C7: cache namespace derivation isolates boards — the derived key is
deterministic and, under one protocol, two identities share a key exactly
when they are equal; consequently two default-cache boards share a cache
directory exactly when their base paths agree (path backends) or their server
urls agree (the rsc backend). -/
theorem cache_namespace_isolation (protocol p1 p2 u1 u2 : String)
    (versioned : Bool) (apr : Option Bool) :
    (prefix_cache protocol p1 = prefix_cache protocol p2 ↔ p1 = p2)
    ∧ (protocol ≠ "rsc" →
        ((board protocol p1 versioned CacheArg.DEFAULT apr "" none).map
            (fun b => b.fs.cacheDir)
          = (board protocol p2 versioned CacheArg.DEFAULT apr "" none).map
            (fun b => b.fs.cacheDir)
         ↔ p1 = p2))
    ∧ ((board "rsc" "" versioned CacheArg.DEFAULT apr u1 none).map
          (fun b => b.fs.cacheDir)
        = (board "rsc" "" versioned CacheArg.DEFAULT apr u2 none).map
          (fun b => b.fs.cacheDir)
       ↔ u1 = u2) := by
  refine ⟨?_, fun h => ?_, ?_⟩
  · unfold prefix_cache
    exact string_append_left_cancel_iff _ _ _
  · simp [board, h, Fs.cacheDir, prefix_cache, Except.map,
      string_append_left_cancel_iff]
  · simp [board, Fs.cacheDir, prefix_cache, Except.map,
      string_append_left_cancel_iff]

/-- C7 witness: under the file protocol, the default-cache boards at paths
"a" and "b" share a cache directory exactly when the paths agree. -/
theorem cache_namespace_isolation_witness :
    ((board "file" "a" true CacheArg.DEFAULT none "" none).map
        (fun b => b.fs.cacheDir)
      = (board "file" "b" true CacheArg.DEFAULT none "" none).map
        (fun b => b.fs.cacheDir))
    ↔ "a" = "b" :=
  (cache_namespace_isolation "file" "a" "b" "" "" true none).2.1 (by decide)

/-- C8: a board built from individual urls with the default cache uses the
access-time cache keyed under the source-url namespace with remapped local
filenames (same_names false), whereas every default-cache board built by
`board` — whose cache entries are version-pinned — mirrors remote filenames
verbatim (same_names true). -/
theorem cache_policy_flags (path : String) (pp : List (String × String))
    (apr : Option Bool) (protocol bpath su : String) (versioned : Bool)
    (ak : Option String) :
    board_url path pp CacheArg.DEFAULT apr =
      Except.ok
        { kind := "BoardManual", board := path,
          fs := Fs.pinsAccessTimeCache "http"
            (get_cache_dir ++ "/" ++ prefix_cache "http" path) false,
          versioned := true, allow_pickle_read := apr, pin_paths := pp }
    ∧ (∀ b, board protocol bpath versioned CacheArg.DEFAULT apr su ak = Except.ok b →
        b.fs.isVersionPinned = true ∧ b.fs.sameNamesFlag = some true) := by
  refine ⟨rfl, fun b h => ?_⟩
  by_cases hp : protocol = "rsc"
  · subst hp
    simp [board] at h
    simp [← h, Fs.isVersionPinned, Fs.sameNamesFlag]
  · simp [board, hp] at h
    simp [← h, Fs.isVersionPinned, Fs.sameNamesFlag]

/-- C8 witness: the flags at a concrete object-store board. -/
theorem cache_policy_flags_witness :
    (Fs.pinsCache (get_cache_dir ++ "/" ++ prefix_cache "s3" "bucket")
        (Fs.plain "s3") "bucket" true).isVersionPinned = true
    ∧ (Fs.pinsCache (get_cache_dir ++ "/" ++ prefix_cache "s3" "bucket")
        (Fs.plain "s3") "bucket" true).sameNamesFlag = some true :=
  (cache_policy_flags "" [] none "s3" "bucket" "" true none).2
    { kind := "BaseBoard", board := "bucket",
      fs := Fs.pinsCache (get_cache_dir ++ "/" ++ prefix_cache "s3" "bucket")
        (Fs.plain "s3") "bucket" true,
      versioned := true, allow_pickle_read := none, pin_paths := [] } rfl

/-- C10: deparsing an RStudio Connect board never leaks the api key — two
boards built with the same server url and allow_pickle_read but different
api keys deparse to the identical string — and deparsing a board whose
filesystem protocol is neither "rsc" nor "file" raises NotImplementedError. -/
theorem board_deparse_secrecy (su : String) (versioned : Bool)
    (apr : Option Bool) (cache : CacheArg) (k1 k2 : Option String)
    (b : BoardObj) :
    (board_rsconnect su versioned k1 cache apr).map board_deparse =
      (board_rsconnect su versioned k2 cache apr).map board_deparse
    ∧ (b.fs.protocol ≠ "rsc" → b.fs.protocol ≠ "file" →
        board_deparse b = Except.error (PinsError.notImplementedError
          ("board deparsing currently not supported for protocol: " ++
            b.fs.protocol))) := by
  constructor
  · cases cache <;>
      simp [board_rsconnect, board, board_deparse, Fs.protocol, Fs.serverUrl,
        Except.map]
  · intro h1 h2
    simp [board_deparse, h1, h2]

/-- C10 witness: two rsc boards differing only in api key deparse alike, and
an s3-backed board cannot be deparsed. -/
theorem board_deparse_secrecy_witness :
    (board_rsconnect "https://example.com" true (some "key-one")
        CacheArg.DEFAULT none).map board_deparse =
      (board_rsconnect "https://example.com" true (some "key-two")
        CacheArg.DEFAULT none).map board_deparse
    ∧ board_deparse
        { kind := "BaseBoard", board := "b", fs := Fs.plain "s3",
          versioned := true, allow_pickle_read := none, pin_paths := [] } =
        Except.error (PinsError.notImplementedError
          "board deparsing currently not supported for protocol: s3") :=
  ⟨(board_deparse_secrecy "https://example.com" true none CacheArg.DEFAULT
      (some "key-one") (some "key-two")
      { kind := "BaseBoard", board := "b", fs := Fs.plain "s3",
        versioned := true, allow_pickle_read := none, pin_paths := [] }).1,
   (board_deparse_secrecy "https://example.com" true none CacheArg.DEFAULT
      (some "key-one") (some "key-two")
      { kind := "BaseBoard", board := "b", fs := Fs.plain "s3",
        versioned := true, allow_pickle_read := none, pin_paths := [] }).2
     (by decide) (by decide)⟩

/-- An infix of a string's characters is an infix of any left-extension. -/
theorem infix_data_append_left (x : String) (l : List Char) (m : String)
    (h : l <:+: m.data) : l <:+: (x ++ m).data := by
  obtain ⟨s, t, hst⟩ := h
  refine ⟨x.data ++ s, t, ?_⟩
  rw [String.data_append, ← hst]
  simp [List.append_assoc]

/-- An infix of a string's characters is an infix of any right-extension. -/
theorem infix_data_append_right (l : List Char) (m x : String)
    (h : l <:+: m.data) : l <:+: (m ++ x).data := by
  obtain ⟨s, t, hst⟩ := h
  refine ⟨s, t ++ x.data, ?_⟩
  rw [String.data_append, ← hst]
  simp [List.append_assoc]

/-- Every part passed to `joinSep` appears verbatim in the joined string. -/
theorem mem_joinSep_infix (sep x : String) (l : List String) (h : x ∈ l) :
    x.data <:+: (joinSep sep l).data := by
  induction l with
  | nil => cases h
  | cons a as ih =>
    cases as with
    | nil =>
      have hx : x = a := by simpa using h
      subst hx
      exact ⟨[], [], by simp [joinSep]⟩
    | cons b bs =>
      rcases List.mem_cons.mp h with h1 | h2
      · subst h1
        show x.data <:+: ((x ++ sep) ++ joinSep sep (b :: bs)).data
        exact infix_data_append_right _ _ _
          (infix_data_append_right _ _ _ ⟨[], [], by simp⟩)
      · show x.data <:+: ((a ++ sep) ++ joinSep sep (b :: bs)).data
        exact infix_data_append_left _ _ _ (ih h2)

/-- C5: for every opaque payload, the data preview is the fixed
empty-structure marker, independent of the payload's value or type; for every
tabular payload it is the deterministic structured summary built from the
head-100 row sample and the per-column descriptors, and each row record and
each column descriptor (name, label, alignment hint, type hint) appears
verbatim inside it. -/
theorem data_preview_spec (p : Payload) :
    (exposesShape p = false → data_preview (createAdaptor p) = "\x7b\x7d")
    ∧ (∀ cols, p = Payload.pDataFrame cols →
        data_preview (createAdaptor p) = previewTabular cols
        ∧ (∀ r ∈ dfRecords (dfHead 100 cols),
            (jsonRecordSpaced r).data <:+: (data_preview (createAdaptor p)).data)
        ∧ (∀ c ∈ dfColumns cols,
            (columnDescriptor c).data <:+: (data_preview (createAdaptor p)).data)) := by
  constructor
  · intro h
    cases p <;> simp_all [createAdaptor, data_preview, exposesShape]
  · rintro cols rfl
    refine ⟨rfl, fun r hr => ?_, fun c hc => ?_⟩
    · have h1 : (jsonRecordSpaced r).data <:+:
          (joinSep ", " ((dfRecords (dfHead 100 cols)).map jsonRecordSpaced)).data :=
        mem_joinSep_infix _ _ _ (List.mem_map_of_mem _ hr)
      have h2 := infix_data_append_left "\x7b\"data\": [" _ _ h1
      have h3 := infix_data_append_right _ _ "], \"columns\": [" h2
      have h4 := infix_data_append_right _ _
        (joinSep ", " ((dfColumns cols).map columnDescriptor)) h3
      exact infix_data_append_right _ _ "]\x7d" h4
    · have h1 : (columnDescriptor c).data <:+:
          (joinSep ", " ((dfColumns cols).map columnDescriptor)).data :=
        mem_joinSep_infix _ _ _ (List.mem_map_of_mem _ hc)
      have h2 := infix_data_append_left
        ("\x7b\"data\": [" ++
          joinSep ", " ((dfRecords (dfHead 100 cols)).map jsonRecordSpaced) ++
          "], \"columns\": [") _ _ h1
      exact infix_data_append_right _ _ "]\x7d" h2

/-- C5 witness: the preview of the opaque integer payload 42 is the marker,
and the descriptor of column a appears in the preview of the test
DataFrame. -/
theorem data_preview_spec_witness :
    data_preview (createAdaptor (Payload.pInt 42)) = "\x7b\x7d"
    ∧ (columnDescriptor "a").data <:+:
        (data_preview (createAdaptor
          (Payload.pDataFrame [("a", [1, 2, 3]), ("b", [4, 5, 6])]))).data :=
  ⟨(data_preview_spec (Payload.pInt 42)).1 rfl,
   ((data_preview_spec
      (Payload.pDataFrame [("a", [1, 2, 3]), ("b", [4, 5, 6])])).2 _ rfl).2.2
     "a" (by simp [dfColumns])⟩

/-- C9: for every value of the `cache` argument to `board` other than the
DEFAULT sentinel and None, the call raises a `TypeError` (from evaluating the
`NotImplemented` singleton as a callable) before any board is constructed; it
never returns a board using a caller-supplied cache object. -/
theorem board_rejects_custom_cache (protocol path : String) (versioned : Bool)
    (apr : Option Bool) (su : String) (ak : Option String) :
    board protocol path versioned CacheArg.otherObj apr su ak =
      Except.error (PinsError.typeError "NotImplementedType object is not callable") := by
  rfl

end Pins
